import Mathlib

/-!
Verification of the Custom STL Creator geometry pipeline.

Shallow embedding of the repository's JavaScript sources:
  * `js/designs/basketball-jersey/geometry.js` — silhouette generator
    (`jerseyPoints`), Bezier curve samplers (`sampleCubic`,
    `sampleQuadratic`), glyph outline extractor (`pathToContours`),
    text solid builder (`buildText`), polygon offsetter (`shrinkPolygon`),
    and the string preprocessing of `generate`.
  * `js/core/viewer.js` — JSCAD→Three.js mesh conversion
    (`jscadToThreeGeometry`, `pushVertex`) and `loadGeometries`.
  * `js/core/stl-exporter.js` — `exportAllSTL` region skipping, and the
    binary STL layout of the external @jscad/stl-serializer dependency
    (modelled from the spec, see `serializeSTL`).

Two-dimensional points carry exact rational coordinates; the polygon
offsetter, which uses square roots, is modelled over the reals.
-/

/-- A 2D point in millimeters, exact rational coordinates. -/
abbrev Point := ℚ × ℚ

/-- Cross-product terms of the shoelace formula along consecutive vertex
pairs, closing back to the polygon's first vertex. -/
def shoelaceTerms {α : Type} [CommRing α] (first : α × α) : List (α × α) → α
  | [] => 0
  | [p] => p.1 * first.2 - first.1 * p.2
  | p :: q :: rest => (p.1 * q.2 - q.1 * p.2) + shoelaceTerms first (q :: rest)

/-- Twice the shoelace signed area of a polygon given as a vertex list
(positive for counter-clockwise traversal in the y-up frame used by
JSCAD).  Used to state orientation and area claims about the program's
polygons; generic so it applies to both the rational and the real model. -/
def signedArea2 {α : Type} [CommRing α] : List (α × α) → α
  | [] => 0
  | p :: rest => shoelaceTerms p (p :: rest)

/-- Enclosed area of a polygon over the reals: half the absolute shoelace
sum. -/
noncomputable def polyArea (pts : List (ℝ × ℝ)) : ℝ :=
  |signedArea2 pts| / 2

/-- Embeds `jerseyPoints(style)` from
`js/designs/basketball-jersey/geometry.js` (src/unnamed/part_000,
lines 106–151): the 13-point jersey silhouette, with the five style-derived
dimensions selected by string comparison against the three named styles. -/
def jerseyPoints (style : String) : List Point :=
  let W : ℚ := 100
  let H : ℚ := 120
  let shoulderDrop : ℚ := if style = "Retro" then 18 else 14
  let armholeWidth : ℚ := if style = "College" then 22 else 18
  let armholeDepth : ℚ := if style = "Retro" then 30 else 24
  let collarW : ℚ := if style = "NBA Modern" then 20 else 16
  let collarDepth : ℚ := if style = "NBA Modern" then 12 else 10
  [ (0, 0),
    (W, 0),
    (W, H - shoulderDrop),
    (W - armholeWidth, H - shoulderDrop),
    (W - armholeWidth, H - armholeDepth),
    (W - armholeWidth, H),
    (W / 2 + collarW, H),
    (W / 2, H - collarDepth),
    (W / 2 - collarW, H),
    (armholeWidth, H),
    (armholeWidth, H - armholeDepth),
    (armholeWidth, H - shoulderDrop),
    (0, H - shoulderDrop) ]

/-- Embeds `sampleCubic` (src/unnamed/part_000, lines 300–310): the loop
`for i = 1..steps` pushing the cubic Bezier polynomial evaluated at
`t = i/steps`, written exactly as the source computes it. -/
def sampleCubic (x0 y0 x1 y1 x2 y2 x3 y3 : ℚ) (steps : ℕ) : List Point :=
  (List.range steps).map (fun (i : ℕ) =>
    let t : ℚ := ((i : ℚ) + 1) / (steps : ℚ)
    let mt : ℚ := 1 - t
    (mt*mt*mt*x0 + 3*mt*mt*t*x1 + 3*mt*t*t*x2 + t*t*t*x3,
     mt*mt*mt*y0 + 3*mt*mt*t*y1 + 3*mt*t*t*y2 + t*t*t*y3))

/-- Embeds `sampleQuadratic` (src/unnamed/part_000, lines 312–322). -/
def sampleQuadratic (x0 y0 x1 y1 x2 y2 : ℚ) (steps : ℕ) : List Point :=
  (List.range steps).map (fun (i : ℕ) =>
    let t : ℚ := ((i : ℚ) + 1) / (steps : ℚ)
    let mt : ℚ := 1 - t
    (mt*mt*x0 + 2*mt*t*x1 + t*t*x2,
     mt*mt*y0 + 2*mt*t*y1 + t*t*y2))

/-- The standard parametric cubic Bezier point at parameter `t`, in
Bernstein form, as the spec describes the Curve Sampler's contract. -/
def cubicBezierPoint (p0 p1 p2 p3 : Point) (t : ℚ) : Point :=
  ((1 - t)^3 * p0.1 + 3*(1 - t)^2*t * p1.1 + 3*(1 - t)*t^2 * p2.1 + t^3 * p3.1,
   (1 - t)^3 * p0.2 + 3*(1 - t)^2*t * p1.2 + 3*(1 - t)*t^2 * p2.2 + t^3 * p3.2)

/-- The standard parametric quadratic Bezier point at parameter `t`. -/
def quadBezierPoint (p0 p1 p2 : Point) (t : ℚ) : Point :=
  ((1 - t)^2 * p0.1 + 2*(1 - t)*t * p1.1 + t^2 * p2.1,
   (1 - t)^2 * p0.2 + 2*(1 - t)*t * p1.2 + t^2 * p2.2)

/-- An opentype.js path command, as consumed by `pathToContours`
(src/unnamed/part_000, lines 261–294): move, line, cubic curve,
quadratic curve, close. -/
inductive PathCmd
  | move (x y : ℚ)
  | line (x y : ℚ)
  | cubic (x1 y1 x2 y2 x y : ℚ)
  | quad (x1 y1 x y : ℚ)
  | close
deriving DecidableEq

/-- The loop state of `pathToContours`: finished contours, the current
contour buffer, and the cursor position `(cx, cy)`. -/
structure ContourState where
  contours : List (List Point)
  current : List Point
  cx : ℚ
  cy : ℚ
deriving DecidableEq

/-- One iteration of the `for (const cmd of path.commands)` switch in
`pathToContours` (src/unnamed/part_000, lines 261–295).  A contour buffer
is flushed to the output only when `current.length > 2`. -/
def stepCmd (st : ContourState) : PathCmd → ContourState
  | .move x y =>
      { contours := (if 2 < st.current.length then st.contours ++ [st.current] else st.contours),
        current := [(x, y)],
        cx := x,
        cy := y }
  | .line x y =>
      { st with
        current := st.current ++ [(x, y)],
        cx := x,
        cy := y }
  | .cubic x1 y1 x2 y2 x y =>
      { st with
        current := st.current ++ sampleCubic st.cx st.cy x1 y1 x2 y2 x y 8,
        cx := x,
        cy := y }
  | .quad x1 y1 x y =>
      { st with
        current := st.current ++ sampleQuadratic st.cx st.cy x1 y1 x y 8,
        cx := x,
        cy := y }
  | .close =>
      { st with
        contours := (if 2 < st.current.length then st.contours ++ [st.current] else st.contours),
        current := [] }

/-- Embeds `pathToContours(path, scale)` (src/unnamed/part_000,
lines 255–298): fold the commands through `stepCmd` starting from an empty
buffer at cursor `(0,0)`, then flush the final buffer if it holds more
than 2 points.  The `scale` parameter is unused, exactly as in the source. -/
def pathToContours (cmds : List PathCmd) (scale : ℚ) : List (List Point) :=
  let st := cmds.foldl stepCmd ⟨[], [], 0, 0⟩
  let _ := scale
  if 2 < st.current.length then st.contours ++ [st.current] else st.contours

/-- Embeds the JavaScript idiom `Math.sqrt(...) || 1` used in
`shrinkPolygon` (src/unnamed/part_000, lines 339–343): a zero (falsy)
length is replaced by 1; a square root of a nonnegative real is never
NaN, so the guard fires exactly on zero. -/
noncomputable def orOne (x : ℝ) : ℝ := if x = 0 then 1 else x

/-- Embeds `shrinkPolygon(points, amount)` (src/unnamed/part_000,
lines 327–346) over the reals: for each vertex, the two incident edge
vectors, the right-hand normals `(ey, -ex)`, guarded normalization,
bisector, guarded normalization again, and displacement by `amount`.
Indexing `(i - 1 + n) % n` is written `(i + n - 1) % n`, identical for
`0 ≤ i < n`. -/
noncomputable def shrinkPolygon (points : List (ℝ × ℝ)) (amount : ℝ) : List (ℝ × ℝ) :=
  let n := points.length
  (List.range n).map (fun i =>
    let p := points.getD i (0, 0)
    let prev := points.getD ((i + n - 1) % n) (0, 0)
    let next := points.getD ((i + 1) % n) (0, 0)
    let e1x := p.1 - prev.1
    let e1y := p.2 - prev.2
    let e2x := next.1 - p.1
    let e2y := next.2 - p.2
    let n1x := e1y
    let n1y := -e1x
    let n2x := e2y
    let n2y := -e2x
    let l1 := orOne (Real.sqrt (n1x*n1x + n1y*n1y))
    let l2 := orOne (Real.sqrt (n2x*n2x + n2y*n2y))
    let bx := n1x/l1 + n2x/l2
    let bv := n1y/l1 + n2y/l2
    let lb := orOne (Real.sqrt (bx*bx + bv*bv))
    (p.1 + (bx/lb)*amount, p.2 + (bv/lb)*amount))

/-- A glyph as `buildText` consumes it: `getPath(0, 0, size).commands`
modelled as a size-indexed command list, plus the optional
`advanceWidth` metric (absent models JavaScript `undefined`). -/
structure Glyph where
  path : ℚ → List PathCmd
  advanceWidth : Option ℚ

/-- The font resource used by `buildText`: `unitsPerEm`,
`stringToGlyphs`, and `getKerningValue`. -/
structure Font where
  unitsPerEm : ℚ
  stringToGlyphs : String → List Glyph
  kerning : Glyph → Glyph → ℚ

/-- The options object of `buildText` (src/unnamed/part_000,
lines 168–175), with the fields the function reads. -/
structure TextOpts where
  size : ℚ
  z : ℚ
  height : ℚ
  centerX : ℚ
  centerY : ℚ

/-- A JSCAD geometry term as built by `buildText`: 2D polygon primitive,
linear extrusion, translation, and boolean union. -/
inductive Geom
  | polygon (points : List Point)
  | extrudeLinear (height : ℚ) (g : Geom)
  | translate (x y z : ℚ) (g : Geom)
  | union (gs : List Geom)

/-- Embeds the JavaScript idiom `a || b` for an optional numeric `a`
(`glyph.advanceWidth || size * 0.6` in src/unnamed/part_000, line 205):
`undefined` and `0` both fall back to `b`. -/
def jsOr (a : Option ℚ) (b : ℚ) : ℚ :=
  match a with
  | some x => if x = 0 then b else x
  | none => b

/-- Embeds JavaScript `String.prototype.trim` on a character list:
whitespace is dropped from both ends. -/
def jsTrim (l : List Char) : List Char :=
  ((l.dropWhile Char.isWhitespace).reverse.dropWhile Char.isWhitespace).reverse

/-- The per-glyph loop of `buildText` (src/unnamed/part_000,
lines 188–213): collect each glyph's contours having at least 3 points,
tagged with the cursor offset, then advance the cursor by the scaled
advance width (`|| size * 0.6`) and, between consecutive glyphs, the
scaled kerning value.  Returns the collected polygons and the final
cursor (the total text width). -/
def textGlyphLoop (font : Font) (size scale : ℚ) :
    List Glyph → ℚ → List (List Point × ℚ) × ℚ
  | [], cursorX => ([], cursorX)
  | g :: rest, cursorX =>
      let contours := pathToContours (g.path size) scale
      let polys := (contours.filter (fun pts => 3 ≤ pts.length)).map (fun pts => (pts, cursorX))
      let adv := jsOr g.advanceWidth (size * (3 / 5))
      let c1 := cursorX + adv * scale
      let c2 := match rest with
        | [] => c1
        | g2 :: _ => c1 + font.kerning g g2 * scale
      let res := textGlyphLoop font size scale rest c2
      (polys ++ res.1, res.2)

/-- Embeds `buildText(jscad, font, text, opts)` (src/unnamed/part_000,
lines 168–230): `null` for empty or all-whitespace text, `null` when no
polygons survive, otherwise the extruded, translated and unioned glyph
solids (a single solid is returned directly, as in the source). -/
def buildText (font : Font) (text : String) (opts : TextOpts) : Option Geom :=
  if text = "" ∨ jsTrim text.toList = [] then none
  else
    let scale := opts.size / font.unitsPerEm
    let glyphs := font.stringToGlyphs text
    let res := textGlyphLoop font opts.size scale glyphs 0
    let allPolygons := res.1
    if allPolygons = [] then none
    else
      let textWidth := res.2
      let startX := opts.centerX - textWidth / 2
      let extruded := allPolygons.map (fun pr =>
        Geom.translate (startX + pr.2) opts.centerY opts.z
          (Geom.extrudeLinear opts.height (Geom.polygon pr.1)))
      match extruded with
      | [g] => some g
      | gs => some (Geom.union gs)

/-- A JSCAD vertex as `pushVertex` (js/core/viewer.js, lines 214–223)
accepts it: an `[x,y,z]` array (newer API), a `{pos:[x,y,z]}` record
(old API), or an `{x,y,z}` record. -/
inductive JVertex
  | arr (x y z : ℚ)
  | pos (x y z : ℚ)
  | xyz (x y z : ℚ)
deriving DecidableEq

/-- Embeds `pushVertex(arr, v)` (js/core/viewer.js, lines 214–223): the
three position floats appended for a vertex. -/
def pushVertex : JVertex → List ℚ
  | .arr x y z => [x, y, z]
  | .pos x y z => [x, y, z]
  | .xyz x y z => [x, y, z]

/-- A JSCAD geom3 polygon (face) as `jscadToThreeGeometry` reads it: the
`vertices` list may be missing (JavaScript `undefined`). -/
structure JPolygon where
  vertices : Option (List JVertex)

/-- The fan-triangulation loop of `jscadToThreeGeometry`
(js/core/viewer.js, lines 201–205): `for (i = 1; i < verts.length - 1; i++)`
pushes the triangle `(verts[0], verts[i], verts[i+1])`; modelled by
walking the consecutive pairs of the tail. -/
def fanPositions (v0 : JVertex) : List JVertex → List ℚ
  | a :: b :: rest => pushVertex v0 ++ pushVertex a ++ pushVertex b ++ fanPositions v0 (b :: rest)
  | _ => []

/-- The contribution of one face to the position buffer in
`jscadToThreeGeometry` (js/core/viewer.js, lines 196–206): a missing
vertex list or fewer than 3 vertices contributes nothing. -/
def polyContribution (p : JPolygon) : List ℚ :=
  match p.vertices with
  | none => []
  | some verts =>
      if verts.length < 3 then []
      else
        match verts with
        | [] => []
        | v0 :: rest => fanPositions v0 rest

/-- Embeds the single-geometry branch of `jscadToThreeGeometry`
(js/core/viewer.js, lines 191–211): the flat position buffer accumulated
over `jscadGeom.polygons`. -/
def jscadToThreeGeometry (polys : List JPolygon) : List ℚ :=
  polys.flatMap polyContribution

/-- A color region from a design config (`{ id, label, default }`). -/
structure ColorRegion where
  id : String
  label : String
  defaultColor : String

/-- A design config as the exporter reads it: `id` and `colorRegions`. -/
structure Design where
  id : String
  colorRegions : List ColorRegion

/-- Embeds the mesh-building loop of `loadGeometries`
(js/core/viewer.js, lines 106–125): regions whose geometry is
absent (`if (!jscadGeom) return`) get no mesh; the rest produce one mesh
entry keyed by region id. -/
def loadGeometries (colorRegions : List ColorRegion) (geometries : String → Option Geom) :
    List (String × Geom) :=
  colorRegions.filterMap (fun r => (geometries r.id).map (fun g => (r.id, g)))

/-- Embeds the export loop of `exportAllSTL` (src/unnamed/part_002,
lines 154–164) applied to an already-generated region map: regions with
no geometry are skipped (`if (!geometries[region.id]) continue`), the
rest download a file named `design.id ++ "__" ++ region.id ++ ".stl"`. -/
def exportAllSTL (design : Design) (geometries : String → Option Geom) :
    List (String × String) :=
  design.colorRegions.filterMap (fun r =>
    (geometries r.id).map (fun _ => (r.id, design.id ++ "__" ++ r.id ++ ".stl")))

/-- A triangle of the binary STL format: a face normal and three vertex
positions, each coordinate a 32-bit float carried as its bit pattern. -/
structure STLTriangle where
  normal : ℕ × ℕ × ℕ
  v1 : ℕ × ℕ × ℕ
  v2 : ℕ × ℕ × ℕ
  v3 : ℕ × ℕ × ℕ
deriving DecidableEq

/-- Little-endian 4-byte encoding of a 32-bit unsigned integer. -/
def encodeU32 (n : ℕ) : List ℕ :=
  [n % 256, n / 256 % 256, n / 65536 % 256, n / 16777216 % 256]

/-- Little-endian decoding of the first 4 bytes of a buffer. -/
def decodeU32 (l : List ℕ) : ℕ :=
  l.getD 0 0 + 256 * l.getD 1 0 + 65536 * l.getD 2 0 + 16777216 * l.getD 3 0

/-- The 12 bytes of one 3-float vector. -/
def encodeVec3 (v : ℕ × ℕ × ℕ) : List ℕ :=
  encodeU32 v.1 ++ encodeU32 v.2.1 ++ encodeU32 v.2.2

/-- The 50 bytes of one STL triangle record: normal, three vertices, and
2 bytes of padding. -/
def encodeTriangle (t : STLTriangle) : List ℕ :=
  encodeVec3 t.normal ++ encodeVec3 t.v1 ++ encodeVec3 t.v2 ++ encodeVec3 t.v3 ++ [0, 0]

/-- Modelled from the spec: the binary STL writer used by
`exportRegionSTL` (src/unnamed/part_002, lines 169–193) lives in the
external `@jscad/stl-serializer` package, which is not under src/; this
definition follows the byte layout of spec §6 — an 80-byte zero header,
the little-endian 32-bit triangle count, then 50 bytes per triangle. -/
def serializeSTL (tris : List STLTriangle) : List ℕ :=
  List.replicate 80 0 ++ encodeU32 tris.length ++ tris.flatMap encodeTriangle

/-- Decodes one 12-byte vector from the front of a buffer. -/
def decodeVec3 (l : List ℕ) : ℕ × ℕ × ℕ :=
  (decodeU32 (l.take 4), decodeU32 ((l.drop 4).take 4), decodeU32 ((l.drop 8).take 4))

/-- Decodes the 50-byte triangle record at the front of a buffer. -/
def decodeTriangle (l : List ℕ) : STLTriangle :=
  { normal := decodeVec3 (l.take 12),
    v1 := decodeVec3 ((l.drop 12).take 12),
    v2 := decodeVec3 ((l.drop 24).take 12),
    v3 := decodeVec3 ((l.drop 36).take 12) }

/-- Reads `count` consecutive 50-byte triangle records. -/
def parseTris (buf : List ℕ) : ℕ → List STLTriangle
  | 0 => []
  | k + 1 => decodeTriangle buf :: parseTris (buf.drop 50) k

/-- Re-parses a binary STL buffer: the triangle count at bytes 80–83 and
the triangle records from byte 84 on. -/
def parseSTL (buf : List ℕ) : ℕ × List STLTriangle :=
  let count := decodeU32 ((buf.drop 80).take 4)
  (count, parseTris (buf.drop 84) count)

/-- All 12 coordinate words of a triangle fit in 32 bits. -/
def triValid (t : STLTriangle) : Prop :=
  t.normal.1 < 4294967296 ∧ t.normal.2.1 < 4294967296 ∧ t.normal.2.2 < 4294967296 ∧
  t.v1.1 < 4294967296 ∧ t.v1.2.1 < 4294967296 ∧ t.v1.2.2 < 4294967296 ∧
  t.v2.1 < 4294967296 ∧ t.v2.2.1 < 4294967296 ∧ t.v2.2.2 < 4294967296 ∧
  t.v3.1 < 4294967296 ∧ t.v3.2.1 < 4294967296 ∧ t.v3.2.2 < 4294967296

instance (t : STLTriangle) : Decidable (triValid t) := by
  unfold triValid
  infer_instance

/-- A primitive JavaScript value as the `generate` inputs carry them
(src/unnamed/part_000, lines 42–49): string, number, or boolean. -/
inductive JsValue
  | str (s : List Char)
  | int (n : ℤ)
  | bool (b : Bool)

/-- JavaScript `String(v)` coercion on the modelled value kinds. -/
def jsString : JsValue → List Char
  | .str s => s
  | .int n => (toString n).toList
  | .bool b => if b then "true".toList else "false".toList

/-- Embeds `const numStr = String(number).substring(0, 2)`
(src/unnamed/part_000, line 63). -/
def numStr (number : JsValue) : List Char :=
  (jsString number).take 2

/-- Embeds
`const nameStr = String(playerName).toUpperCase().substring(0, 14)`
(src/unnamed/part_000, line 74). -/
def nameStr (playerName : JsValue) : List Char :=
  ((jsString playerName).map Char.toUpper).take 14

/-! ## Helper lemmas -/

theorem stepCmd_min3 (st : ContourState) (cmd : PathCmd)
    (h : ∀ c ∈ st.contours, 3 ≤ c.length) :
    ∀ c ∈ (stepCmd st cmd).contours, 3 ≤ c.length := by
  cases cmd with
  | move x y =>
      intro c hc
      simp only [stepCmd] at hc
      by_cases hlen : 2 < st.current.length
      · rw [if_pos hlen] at hc
        rcases List.mem_append.mp hc with h1 | h2
        · exact h c h1
        · rw [List.mem_singleton.mp h2]; omega
      · rw [if_neg hlen] at hc
        exact h c hc
  | close =>
      intro c hc
      simp only [stepCmd] at hc
      by_cases hlen : 2 < st.current.length
      · rw [if_pos hlen] at hc
        rcases List.mem_append.mp hc with h1 | h2
        · exact h c h1
        · rw [List.mem_singleton.mp h2]; omega
      · rw [if_neg hlen] at hc
        exact h c hc
  | line x y => intro c hc; exact h c hc
  | cubic x1 y1 x2 y2 x y => intro c hc; exact h c hc
  | quad x1 y1 x y => intro c hc; exact h c hc

theorem foldl_stepCmd_min3 (cmds : List PathCmd) :
    ∀ st : ContourState, (∀ c ∈ st.contours, 3 ≤ c.length) →
      ∀ c ∈ (cmds.foldl stepCmd st).contours, 3 ≤ c.length := by
  induction cmds with
  | nil => intro st h; simpa using h
  | cons cmd rest ih =>
      intro st h
      exact ih _ (stepCmd_min3 st cmd h)

theorem pushVertex_length (v : JVertex) : (pushVertex v).length = 3 := by
  cases v <;> rfl

theorem fanPositions_length (v0 : JVertex) : ∀ rest : List JVertex,
    (fanPositions v0 rest).length = 9 * (rest.length - 1)
  | [] => by simp [fanPositions]
  | [a] => by simp [fanPositions]
  | a :: b :: rest => by
      have ih := fanPositions_length v0 (b :: rest)
      simp only [fanPositions, List.length_append, pushVertex_length, ih, List.length_cons]
      omega

theorem fanPositions_closed_form (v0 : JVertex) : ∀ rest : List JVertex,
    fanPositions v0 rest = (List.range (rest.length - 1)).flatMap (fun k =>
      pushVertex v0 ++ pushVertex (rest.getD k (.arr 0 0 0)) ++
        pushVertex (rest.getD (k + 1) (.arr 0 0 0)))
  | [] => by simp [fanPositions]
  | [a] => by simp [fanPositions]
  | a :: b :: rest => by
      have ih := fanPositions_closed_form v0 (b :: rest)
      have h1 : fanPositions v0 (a :: b :: rest) =
          (pushVertex v0 ++ pushVertex a ++ pushVertex b) ++ fanPositions v0 (b :: rest) := by
        simp [fanPositions]
      have h2 : (a :: b :: rest).length - 1 = ((b :: rest).length - 1) + 1 := by
        simp
      rw [h1, ih, h2, List.range_succ_eq_map, List.flatMap_cons, List.flatMap_map]
      simp only [List.getD_cons_zero, List.getD_cons_succ, Function.comp_def,
        Nat.succ_eq_add_one, List.append_assoc]

/-! ## Claim theorems -/

/-- Literal evaluation of the "NBA Modern" silhouette. -/
theorem jerseyPoints_literal_nba :
    jerseyPoints "NBA Modern" =
      [(0, 0), (100, 0), (100, 106), (82, 106), (82, 96), (82, 120), (70, 120),
       (50, 108), (30, 120), (18, 120), (18, 96), (18, 106), (0, 106)] := by
  simp only [jerseyPoints,
    if_neg (show ¬("NBA Modern" : String) = "Retro" by decide),
    if_neg (show ¬("NBA Modern" : String) = "College" by decide),
    if_pos (show ("NBA Modern" : String) = "NBA Modern" by decide)]
  norm_num

/-- Literal evaluation of the "Retro" silhouette. -/
theorem jerseyPoints_literal_retro :
    jerseyPoints "Retro" =
      [(0, 0), (100, 0), (100, 102), (82, 102), (82, 90), (82, 120), (66, 120),
       (50, 110), (34, 120), (18, 120), (18, 90), (18, 102), (0, 102)] := by
  simp only [jerseyPoints,
    if_pos (show ("Retro" : String) = "Retro" by decide),
    if_neg (show ¬("Retro" : String) = "College" by decide),
    if_neg (show ¬("Retro" : String) = "NBA Modern" by decide)]
  norm_num

/-- Literal evaluation of the "College" silhouette. -/
theorem jerseyPoints_literal_college :
    jerseyPoints "College" =
      [(0, 0), (100, 0), (100, 106), (78, 106), (78, 96), (78, 120), (66, 120),
       (50, 110), (34, 120), (22, 120), (22, 96), (22, 106), (0, 106)] := by
  simp only [jerseyPoints,
    if_neg (show ¬("College" : String) = "Retro" by decide),
    if_pos (show ("College" : String) = "College" by decide),
    if_neg (show ¬("College" : String) = "NBA Modern" by decide)]
  norm_num

/-- Literal evaluation of the silhouette for any unknown style. -/
theorem jerseyPoints_literal_default (style : String)
    (h1 : style ≠ "NBA Modern") (h2 : style ≠ "College") (h3 : style ≠ "Retro") :
    jerseyPoints style =
      [(0, 0), (100, 0), (100, 106), (82, 106), (82, 96), (82, 120), (66, 120),
       (50, 110), (34, 120), (18, 120), (18, 96), (18, 106), (0, 106)] := by
  simp only [jerseyPoints, if_neg h1, if_neg h2, if_neg h3]
  norm_num

/-- C2 counterexample: the silhouette returned by `jerseyPoints` for the
"NBA Modern" style has strictly positive shoelace signed area, i.e. it is
counter-clockwise in the y-up frame the coordinates live in, so the point
sequence is not ordered clockwise. -/
theorem jerseyPoints_not_clockwise :
    0 < signedArea2 (jerseyPoints "NBA Modern") := by
  rw [jerseyPoints_literal_nba]
  norm_num [signedArea2, shoelaceTerms]

/-- C2 (amended): for every style selector string, `jerseyPoints` returns
exactly 13 points, the first being the bottom-left corner (0,0), and the
sequence is ordered counter-clockwise (positive shoelace signed area) in
the y-up coordinate frame. -/
theorem jerseyPoints_thirteen_ccw (style : String) :
    (jerseyPoints style).length = 13 ∧
    (jerseyPoints style).head? = some (0, 0) ∧
    0 < signedArea2 (jerseyPoints style) := by
  by_cases h1 : style = "Retro"
  · subst h1
    rw [jerseyPoints_literal_retro]
    refine ⟨rfl, rfl, ?_⟩
    norm_num [signedArea2, shoelaceTerms]
  by_cases h2 : style = "College"
  · subst h2
    rw [jerseyPoints_literal_college]
    refine ⟨rfl, rfl, ?_⟩
    norm_num [signedArea2, shoelaceTerms]
  by_cases h3 : style = "NBA Modern"
  · subst h3
    rw [jerseyPoints_literal_nba]
    refine ⟨rfl, rfl, ?_⟩
    norm_num [signedArea2, shoelaceTerms]
  rw [jerseyPoints_literal_default style h3 h2 h1]
  refine ⟨rfl, rfl, ?_⟩
  norm_num [signedArea2, shoelaceTerms]

/-- C7: every style selector outside the three named styles yields the
outline built from the default dimension tuple (shoulder drop 14, armhole
width 18, armhole depth 24, collar width 16, collar depth 10) — the same
fixed point list for every unknown selector, with no failure. -/
theorem jerseyPoints_unknown_style_default (style : String)
    (h1 : style ≠ "NBA Modern") (h2 : style ≠ "College") (h3 : style ≠ "Retro") :
    jerseyPoints style =
      [(0, 0), (100, 0), (100, 106), (82, 106), (82, 96), (82, 120), (66, 120),
       (50, 110), (34, 120), (18, 120), (18, 96), (18, 106), (0, 106)] :=
  jerseyPoints_literal_default style h1 h2 h3

/-- C7 witness: the unknown selector "Classic" produces the default
outline. -/
theorem jerseyPoints_unknown_style_default_witness :
    jerseyPoints "Classic" =
      [(0, 0), (100, 0), (100, 106), (82, 106), (82, 96), (82, 120), (66, 120),
       (50, 110), (34, 120), (18, 120), (18, 96), (18, 106), (0, 106)] :=
  jerseyPoints_unknown_style_default "Classic" (by decide) (by decide) (by decide)

/-- C3 counterexample: a path that moves to (0,0) and draws two
zero-length line segments produces a contour of three equal points — it
is emitted (3 points in the buffer) although it has only one distinct
point, refuting the "at least 3 distinct points" reading. -/
theorem pathToContours_repeated_points :
    pathToContours [PathCmd.move 0 0, .line 0 0, .line 0 0, .close] 1 =
      [[((0 : ℚ), (0 : ℚ)), (0, 0), (0, 0)]] ∧
    ((pathToContours [PathCmd.move 0 0, .line 0 0, .line 0 0, .close] 1).getD 0 []).dedup.length
      = 1 := by decide

/-- C3 (amended): every contour emitted by `pathToContours` has at least
3 points (not necessarily distinct); a contour buffer holding fewer than
3 points at a move command, at a close command, or at the end of the path
is silently discarded, never emitted. -/
theorem pathToContours_min_three (cmds : List PathCmd) (scale : ℚ)
    (c : List Point) (hc : c ∈ pathToContours cmds scale) : 3 ≤ c.length := by
  simp only [pathToContours] at hc
  have hbase : ∀ c ∈ (⟨[], [], 0, 0⟩ : ContourState).contours, 3 ≤ c.length := by
    intro c hc
    simp at hc
  have hinv := foldl_stepCmd_min3 cmds ⟨[], [], 0, 0⟩ hbase
  by_cases hlen : 2 < (cmds.foldl stepCmd ⟨[], [], 0, 0⟩).current.length
  · rw [if_pos hlen] at hc
    rcases List.mem_append.mp hc with h1 | h2
    · exact hinv c h1
    · rw [List.mem_singleton.mp h2]; omega
  · rw [if_neg hlen] at hc
    exact hinv c hc

/-- C3 witness: the single contour emitted for a concrete path indeed has
at least 3 points. -/
theorem pathToContours_min_three_witness :
    3 ≤ ([((0 : ℚ), (0 : ℚ)), (0, 0), (0, 0)] : List Point).length :=
  pathToContours_min_three [PathCmd.move 0 0, .line 0 0, .line 0 0, .close] 1 _ (by decide)

/-- C4: with the fixed step count 8, `sampleCubic` and `sampleQuadratic`
return exactly 8 points, the i-th (0-based) being the standard parametric
Bezier evaluation at t = (i+1)/8 — so the start point (t = 0) is
excluded — and the last returned point is the segment's end point. -/
theorem curveSampler_eight_points (x0 y0 x1 y1 x2 y2 x3 y3 : ℚ) :
    (sampleCubic x0 y0 x1 y1 x2 y2 x3 y3 8).length = 8 ∧
    (∀ i : Fin 8, (sampleCubic x0 y0 x1 y1 x2 y2 x3 y3 8).getD i (0, 0) =
      cubicBezierPoint (x0, y0) (x1, y1) (x2, y2) (x3, y3) (((i : ℕ) + 1) / 8)) ∧
    (sampleCubic x0 y0 x1 y1 x2 y2 x3 y3 8).getLast? = some (x3, y3) ∧
    (sampleQuadratic x0 y0 x1 y1 x2 y2 8).length = 8 ∧
    (∀ i : Fin 8, (sampleQuadratic x0 y0 x1 y1 x2 y2 8).getD i (0, 0) =
      quadBezierPoint (x0, y0) (x1, y1) (x2, y2) (((i : ℕ) + 1) / 8)) ∧
    (sampleQuadratic x0 y0 x1 y1 x2 y2 8).getLast? = some (x2, y2) := by
  have h8 : List.range 8 = List.range 7 ++ [7] := by decide
  refine ⟨?_, ?_, ?_, ?_, ?_, ?_⟩
  · simp only [sampleCubic, List.length_map, List.length_range]
  · intro i
    have hi : (i : ℕ) < 8 := i.isLt
    simp only [sampleCubic, List.getD_eq_getElem?_getD, List.getElem?_map,
      List.getElem?_range hi, Option.map_some', Option.getD_some, cubicBezierPoint,
      Prod.mk.injEq]
    constructor <;> push_cast <;> ring
  · simp only [sampleCubic, h8, List.map_append, List.map_cons, List.map_nil,
      List.getLast?_concat, Option.some.injEq, Prod.mk.injEq]
    constructor <;> norm_num
  · simp only [sampleQuadratic, List.length_map, List.length_range]
  · intro i
    have hi : (i : ℕ) < 8 := i.isLt
    simp only [sampleQuadratic, List.getD_eq_getElem?_getD, List.getElem?_map,
      List.getElem?_range hi, Option.map_some', Option.getD_some, quadBezierPoint,
      Prod.mk.injEq]
    constructor <;> push_cast <;> ring
  · simp only [sampleQuadratic, h8, List.map_append, List.map_cons, List.map_nil,
      List.getLast?_concat, Option.some.injEq, Prod.mk.injEq]
    constructor <;> norm_num

/-- C10: `generate` renders the jersey number from at most the first 2
characters of the stringified `number` input and the player name from at
most the uppercased first 14 characters of the stringified `playerName`
input: both derived strings are length-bounded, depend only on the
respective prefix of the raw string, and every modelled value kind
(string, number, boolean) is coerced rather than rejected. -/
theorem generate_truncates_text_inputs :
    (∀ v : JsValue, (numStr v).length ≤ 2) ∧
    (∀ v : JsValue, (nameStr v).length ≤ 14) ∧
    (∀ s : List Char, numStr (.str s) = numStr (.str (s.take 2))) ∧
    (∀ s : List Char, nameStr (.str s) = nameStr (.str (s.take 14))) := by
  refine ⟨?_, ?_, ?_, ?_⟩
  · intro v
    simp [numStr, List.length_take]
  · intro v
    simp [nameStr, List.length_take]
  · intro s
    simp [numStr, jsString, List.take_take]
  · intro s
    simp [nameStr, jsString, ← List.map_take, List.take_take]

/-- C5: for every face with n ≥ 3 vertices, the JSCAD→Three.js conversion
appends exactly 9·(n−2) position floats, fan-triangulated from the face's
first vertex (triangle k is vertex 0 with the k-th consecutive edge of
the tail); a face with a missing vertex list or fewer than 3 vertices
contributes nothing and raises no error. -/
theorem meshMerger_fan_triangulation :
    (∀ verts : List JVertex, 3 ≤ verts.length →
        (polyContribution ⟨some verts⟩).length = 9 * (verts.length - 2)) ∧
    (∀ (v0 : JVertex) (rest : List JVertex),
        fanPositions v0 rest = (List.range (rest.length - 1)).flatMap (fun k =>
          pushVertex v0 ++ pushVertex (rest.getD k (.arr 0 0 0)) ++
            pushVertex (rest.getD (k + 1) (.arr 0 0 0)))) ∧
    (∀ verts : List JVertex, verts.length < 3 → polyContribution ⟨some verts⟩ = []) ∧
    polyContribution ⟨none⟩ = [] := by
  refine ⟨?_, fanPositions_closed_form, ?_, rfl⟩
  · intro verts h
    cases verts with
    | nil => simp at h
    | cons v0 rest =>
        simp only [polyContribution, if_neg (not_lt.mpr h)]
        rw [fanPositions_length]
        simp only [List.length_cons]
        omega
  · intro verts h
    simp only [polyContribution, if_pos h]

/-- C5 witness: a concrete 4-vertex face yields 9·2 position floats and a
concrete 2-vertex face contributes nothing. -/
theorem meshMerger_fan_triangulation_witness :
    (polyContribution ⟨some [JVertex.arr 0 0 0, .pos 1 0 0, .xyz 0 1 0, .arr 2 2 0]⟩).length =
      9 * ([JVertex.arr 0 0 0, .pos 1 0 0, .xyz 0 1 0, .arr 2 2 0].length - 2) ∧
    polyContribution ⟨some [JVertex.arr 0 0 0, .pos 1 0 0]⟩ = [] :=
  ⟨meshMerger_fan_triangulation.1 _ (by decide),
   meshMerger_fan_triangulation.2.2.1 _ (by decide)⟩

/-- C6: an empty or whitespace-only text string makes `buildText` return
`null`; downstream, a region whose region-map value is `null` gets no
mesh from `loadGeometries` and no exported file from `exportAllSTL` —
with no error in any of the three. -/
theorem emptyText_no_mesh_no_file :
    (∀ (font : Font) (text : String) (opts : TextOpts),
        (text = "" ∨ ∀ ch ∈ text.toList, ch.isWhitespace) →
        buildText font text opts = none) ∧
    (∀ (colorRegions : List ColorRegion) (geometries : String → Option Geom) (rid : String),
        geometries rid = none →
        ∀ g, (rid, g) ∉ loadGeometries colorRegions geometries) ∧
    (∀ (design : Design) (geometries : String → Option Geom) (rid : String),
        geometries rid = none →
        ∀ f, (rid, f) ∉ exportAllSTL design geometries) := by
  refine ⟨?_, ?_, ?_⟩
  · intro font text opts h
    have hguard : text = "" ∨ jsTrim text.toList = [] := by
      rcases h with h | h
      · exact Or.inl h
      · refine Or.inr ?_
        have hd : text.toList.dropWhile Char.isWhitespace = [] :=
          List.dropWhile_eq_nil_iff.mpr (fun x hx => h x hx)
        simp only [jsTrim]
        rw [hd]
        simp
    simp only [buildText, if_pos hguard]
  · intro colorRegions geometries rid hnone g hmem
    simp only [loadGeometries, List.mem_filterMap] at hmem
    obtain ⟨r, hr, heq⟩ := hmem
    rw [Option.map_eq_some'] at heq
    obtain ⟨g0, hg0, hpair⟩ := heq
    have hid : r.id = rid := congrArg Prod.fst hpair
    rw [hid, hnone] at hg0
    exact Option.noConfusion hg0
  · intro design geometries rid hnone f hmem
    simp only [exportAllSTL, List.mem_filterMap] at hmem
    obtain ⟨r, hr, heq⟩ := hmem
    rw [Option.map_eq_some'] at heq
    obtain ⟨g0, hg0, hpair⟩ := heq
    have hid : r.id = rid := congrArg Prod.fst hpair
    rw [hid, hnone] at hg0
    exact Option.noConfusion hg0

/-- C6 witness: a whitespace-only string yields no text solid, and a
region map sending every region to `null` yields no mesh entry and no
file for the "trim" region. -/
theorem emptyText_no_mesh_no_file_witness :
    buildText ⟨1, fun _ => [], fun _ _ => 0⟩ "  " ⟨28, 3, 2, 50, 68⟩ = none ∧
    ("trim", Geom.union []) ∉
      loadGeometries [⟨"trim", "Trim / Border", "#041E42"⟩] (fun _ => none) ∧
    ("trim", "basketball-jersey__trim.stl") ∉
      exportAllSTL ⟨"basketball-jersey", [⟨"trim", "Trim / Border", "#041E42"⟩]⟩
        (fun _ => none) :=
  ⟨emptyText_no_mesh_no_file.1 _ _ _ (Or.inr (by decide)),
   emptyText_no_mesh_no_file.2.1 _ _ _ rfl _,
   emptyText_no_mesh_no_file.2.2 _ _ _ rfl _⟩

/-- C8: `shrinkPolygon` is total on every input polygon — it returns one
point per input vertex — and none of its three divisions can divide by
zero: each guarded normalization length `orOne (Real.sqrt _)` is strictly
positive, and a zero-length vector (square root 0) is treated as having
length 1, exactly as the `|| 1` guards prescribe. -/
theorem shrinkPolygon_total_guarded :
    (∀ (points : List (ℝ × ℝ)) (amount : ℝ),
        (shrinkPolygon points amount).length = points.length) ∧
    (∀ x : ℝ, 0 < orOne (Real.sqrt x)) ∧
    orOne (Real.sqrt 0) = 1 := by
  refine ⟨?_, ?_, ?_⟩
  · intro points amount
    simp [shrinkPolygon]
  · intro x
    by_cases h : Real.sqrt x = 0
    · simp [orOne, h]
    · simp only [orOne, if_neg h]
      exact (Real.sqrt_nonneg x).lt_of_ne (Ne.symm h)
  · simp [orOne, Real.sqrt_zero]

theorem encodeTriangle_length (t : STLTriangle) : (encodeTriangle t).length = 50 := rfl

theorem decodeU32_encodeU32_append (n : ℕ) (rest : List ℕ) (h : n < 4294967296) :
    decodeU32 (encodeU32 n ++ rest) = n := by
  simp only [encodeU32, decodeU32, List.cons_append, List.nil_append]
  simp
  omega

theorem decodeTriangle_encodeTriangle (t : STLTriangle) (rest : List ℕ) (h : triValid t) :
    decodeTriangle (encodeTriangle t ++ rest) = t := by
  obtain ⟨⟨a1, a2, a3⟩, ⟨b1, b2, b3⟩, ⟨c1, c2, c3⟩, ⟨d1, d2, d3⟩⟩ := t
  simp only [triValid] at h
  obtain ⟨h1, h2, h3, h4, h5, h6, h7, h8, h9, h10, h11, h12⟩ := h
  simp only [encodeTriangle, encodeVec3, encodeU32, decodeTriangle, decodeVec3, decodeU32,
    List.cons_append, List.nil_append, STLTriangle.mk.injEq, Prod.mk.injEq]
  simp
  omega

theorem drop50_encodeTriangle (t : STLTriangle) (rest : List ℕ) :
    (encodeTriangle t ++ rest).drop 50 = rest := by
  obtain ⟨⟨a1, a2, a3⟩, ⟨b1, b2, b3⟩, ⟨c1, c2, c3⟩, ⟨d1, d2, d3⟩⟩ := t
  rfl

theorem flatMap_encodeTriangle_length (tris : List STLTriangle) :
    (tris.flatMap encodeTriangle).length = 50 * tris.length := by
  induction tris with
  | nil => rfl
  | cons t rest ih =>
      simp only [List.flatMap_cons, List.length_append, encodeTriangle_length, ih,
        List.length_cons]
      ring

theorem parseTris_flatMap (tris : List STLTriangle) (h : ∀ t ∈ tris, triValid t) :
    parseTris (tris.flatMap encodeTriangle) tris.length = tris := by
  induction tris with
  | nil => rfl
  | cons t rest ih =>
      simp only [List.flatMap_cons, List.length_cons, parseTris, List.append_assoc]
      rw [decodeTriangle_encodeTriangle t _ (h t (by simp)), drop50_encodeTriangle]
      rw [ih (fun x hx => h x (by simp [hx]))]

/-- C9: binary STL serialization of N triangles produces exactly
84 + 50·N bytes (80-byte header, 4-byte little-endian triangle count,
50 bytes per triangle), and re-parsing the buffer recovers the same
triangle count and the same vertex data for every triangle. -/
theorem serializeSTL_roundtrip (tris : List STLTriangle)
    (hn : tris.length < 4294967296) (h : ∀ t ∈ tris, triValid t) :
    (serializeSTL tris).length = 84 + 50 * tris.length ∧
    parseSTL (serializeSTL tris) = (tris.length, tris) := by
  constructor
  · simp only [serializeSTL, List.length_append, List.length_replicate, encodeU32,
      List.length_cons, List.length_nil]
    have := flatMap_encodeTriangle_length tris
    omega
  · have hdrop80 : (serializeSTL tris).drop 80 =
        encodeU32 tris.length ++ tris.flatMap encodeTriangle := by
      simp only [serializeSTL]
      rw [List.append_assoc, List.drop_left' (by simp)]
    have hdrop84 : (serializeSTL tris).drop 84 = tris.flatMap encodeTriangle := by
      rw [show (84 : ℕ) = 80 + 4 from rfl, ← List.drop_drop, hdrop80]
      rfl
    have hcount : decodeU32 (((serializeSTL tris).drop 80).take 4) = tris.length := by
      rw [hdrop80]
      have htake : (encodeU32 tris.length ++ tris.flatMap encodeTriangle).take 4 =
          encodeU32 tris.length ++ [] := by rfl
      rw [htake, List.append_nil]
      simpa using decodeU32_encodeU32_append tris.length [] hn
    simp only [parseSTL, hcount, hdrop84, Prod.mk.injEq, true_and]
    exact parseTris_flatMap tris h

/-- C9 witness: a one-triangle mesh serializes to 134 bytes and parses
back to itself. -/
theorem serializeSTL_roundtrip_witness :
    (serializeSTL [⟨(0, 0, 65536), (1, 2, 3), (256, 5, 6), (7, 8, 4294967295)⟩]).length =
      84 + 50 * 1 ∧
    parseSTL (serializeSTL [⟨(0, 0, 65536), (1, 2, 3), (256, 5, 6), (7, 8, 4294967295)⟩]) =
      (1, [⟨(0, 0, 65536), (1, 2, 3), (256, 5, 6), (7, 8, 4294967295)⟩]) :=
  serializeSTL_roundtrip [⟨(0, 0, 65536), (1, 2, 3), (256, 5, 6), (7, 8, 4294967295)⟩]
    (by decide) (by decide)

theorem shrinkPolygon_square_eval :
    shrinkPolygon [((0 : ℝ), (0 : ℝ)), (2, 0), (2, 2), (0, 2)] 1 =
      [(-(1/Real.sqrt 2), -(1/Real.sqrt 2)), (2 + 1/Real.sqrt 2, -(1/Real.sqrt 2)),
       (2 + 1/Real.sqrt 2, 2 + 1/Real.sqrt 2), (-(1/Real.sqrt 2), 2 + 1/Real.sqrt 2)] := by
  have hs0 : Real.sqrt 2 ≠ 0 := by positivity
  have h4 : Real.sqrt 4 = 2 := by
    rw [show (4 : ℝ) = 2^2 by norm_num, Real.sqrt_sq (by norm_num : (0:ℝ) ≤ 2)]
  simp only [shrinkPolygon, List.length_cons, List.length_nil]
  norm_num
  rw [show List.range 4 = [0, 1, 2, 3] from rfl]
  simp only [List.map_cons, List.map_nil]
  norm_num [orOne]
  simp only [h4]
  norm_num [hs0]
  ring

/-- C1 (code bug evidence): on the convex, counter-clockwise unit-style
square (0,0)–(2,0)–(2,2)–(0,2) with offset distance 1, `shrinkPolygon`
strictly increases the enclosed area — every vertex is displaced along
the outward bisector, because the normals `(ey, -ex)` point right of each
edge, which is outward for the counter-clockwise polygons this program
builds (`jerseyPoints` has positive signed area).  This contradicts the
function's own documentation ("Shrink a polygon inward") and the claim
that the offset polygon's area is strictly smaller. -/
theorem shrinkPolygon_grows_ccw_square :
    polyArea [((0 : ℝ), (0 : ℝ)), (2, 0), (2, 2), (0, 2)] <
      polyArea (shrinkPolygon [((0 : ℝ), (0 : ℝ)), (2, 0), (2, 2), (0, 2)] 1) := by
  have hc : 0 < (Real.sqrt 2)⁻¹ := by positivity
  have hsq : Real.sqrt 2 * Real.sqrt 2 = 2 := Real.mul_self_sqrt (by norm_num)
  rw [shrinkPolygon_square_eval]
  unfold polyArea
  simp only [signedArea2, shoelaceTerms]
  norm_num
  have hcc : (Real.sqrt 2)⁻¹ * (Real.sqrt 2)⁻¹ = 1/2 := by
    rw [← mul_inv, hsq]; norm_num
  rw [abs_of_pos (by nlinarith)]
  nlinarith
